import Mathlib

/-!
Verification of the withdrawal operation of the `rust-workshop` repository.

The repository contains three encodings of one operation, "withdraw funds
from a balance":
* `withdraw_funds` on raw `u64` values (src/main.rs, lines 2-7);
* `withdraw_funds_even_better` on newtype wrappers `Balance` / `Amount`
  with `get` accessors (src/main.rs, lines 26-49);
* `withdraw_funds_best` on newtype wrappers in src/best.rs, lines 3-11.

`u64` values are embedded as `Nat`, with explicit `< 2 ^ 64` bounds where
overflow behaviour matters; `Result<T, String>` is embedded as
`Except String T`.
-/

namespace RustWorkshop

/-- The number of values of a `u64`. -/
def u64Size : Nat := 2 ^ 64

/-- Wrapping (two's-complement style) subtraction on `u64`, the behaviour
of Rust's `-` on unsigned integers when overflow checks are off.  For
`a < 2 ^ 64` this computes `(b + 2 ^ 64 - a) % 2 ^ 64`. -/
def wrappingSub (b a : Nat) : Nat := (b + (u64Size - a % u64Size)) % u64Size

/-- Embedding of `withdraw_funds` (src/main.rs, lines 2-7):
`if amount_to_withdraw > balance { return Err("not enough funds".to_string()); }
Ok(balance - amount_to_withdraw)`. -/
def withdraw_funds (balance amount_to_withdraw : Nat) : Except String Nat :=
  if amount_to_withdraw > balance then
    Except.error "not enough funds"
  else
    Except.ok (balance - amount_to_withdraw)

/-- Embedding of `pub struct Balance(u64);` (src/main.rs, line 26). -/
structure Balance where
  val : Nat

/-- Embedding of `pub struct Amount(u64);` (src/main.rs, line 27). -/
structure Amount where
  val : Nat

/-- Embedding of `Balance::get` (src/main.rs, lines 29-33). -/
def Balance.get (b : Balance) : Nat := b.val

/-- Embedding of `Amount::get` (src/main.rs, lines 35-39). -/
def Amount.get (a : Amount) : Nat := a.val

/-- Embedding of `withdraw_funds_even_better` (src/main.rs, lines 41-49). -/
def withdraw_funds_even_better (balance : Balance) (amount_to_withdraw : Amount) :
    Except String Balance :=
  if amount_to_withdraw.get > balance.get then
    Except.error "not enough funds"
  else
    Except.ok (Balance.mk (balance.get - amount_to_withdraw.get))

namespace Best

/-- Embedding of `struct Balance(u64);` (src/best.rs, line 3). -/
structure Balance where
  val : Nat

/-- Embedding of `struct Amount(u64);` (src/best.rs, line 4). -/
structure Amount where
  val : Nat

/-- Modelled from the spec: src/best.rs compares `amount_to_withdraw > balance`
directly on the newtypes, but the repository contains no ordering impl for
them; per the spec ("All three are semantically identical"), the comparison is
modelled as the lift of the `u64` comparison to the wrapped values. -/
def Amount.gtBalance (a : Amount) (b : Balance) : Bool := b.val < a.val

/-- Modelled from the spec: src/best.rs computes `balance - amount_to_withdraw`
directly on the newtypes, but the repository contains no subtraction impl for
them; per the spec ("All three are semantically identical"), the subtraction is
modelled as the lift of the `u64` subtraction to the wrapped values. -/
def Balance.subAmount (b : Balance) (a : Amount) : Balance := Balance.mk (b.val - a.val)

/-- Embedding of `withdraw_funds_best` (src/best.rs, lines 6-11). -/
def withdraw_funds_best (balance : Balance) (amount_to_withdraw : Amount) :
    Except String Balance :=
  if Amount.gtBalance amount_to_withdraw balance then
    Except.error "not enough funds"
  else
    Except.ok (Balance.subAmount balance amount_to_withdraw)

end Best

/-- Claim C1: for every balance `b` and amount `a` with `a ≤ b`,
`withdraw_funds b a` succeeds and the returned new balance equals `b - a`. -/
theorem withdraw_funds_success (b a : Nat) (h : a ≤ b) :
    withdraw_funds b a = Except.ok (b - a) := by
  unfold withdraw_funds
  rw [if_neg (Nat.not_lt.mpr h)]

/-- Witness for C1 at the concrete input `b = 5`, `a = 3`. -/
theorem withdraw_funds_success_witness :
    withdraw_funds 5 3 = Except.ok (5 - 3) :=
  withdraw_funds_success 5 3 (by decide)

/-- Claim C2: `withdraw_funds b a` fails with the `InsufficientFunds` error
(the string "not enough funds") if and only if `a > b`, and every error it
can return is that error: no other failure mode exists. -/
theorem withdraw_funds_error_iff (b a : Nat) :
    (withdraw_funds b a = Except.error "not enough funds" ↔ b < a) ∧
    ∀ e, withdraw_funds b a = Except.error e → e = "not enough funds" := by
  unfold withdraw_funds
  by_cases h : b < a
  · simp [h]
  · simp [h]

/-- Witness for C2 at the concrete input `b = 100`, `a = 101`. -/
theorem withdraw_funds_error_iff_witness :
    (withdraw_funds 100 101 = Except.error "not enough funds" ↔ 100 < 101) ∧
    ∀ e, withdraw_funds 100 101 = Except.error e → e = "not enough funds" :=
  withdraw_funds_error_iff 100 101

/-- Claim C3: the three encodings of the withdrawal are semantically
identical: for every pair of underlying `u64` values they produce the same
success/failure outcome and the same resulting numeric balance. -/
theorem withdraw_encodings_equivalent (b a : Nat) :
    (withdraw_funds_even_better (Balance.mk b) (Amount.mk a)).map Balance.get
      = withdraw_funds b a ∧
    (Best.withdraw_funds_best (Best.Balance.mk b) (Best.Amount.mk a)).map Best.Balance.val
      = withdraw_funds b a := by
  constructor <;>
    · by_cases h : b < a <;>
        simp [withdraw_funds, withdraw_funds_even_better, Best.withdraw_funds_best,
          Balance.get, Amount.get, Best.Amount.gtBalance, Best.Balance.subAmount,
          Except.map, h]

/-- Claim C4: whenever `withdraw_funds` succeeds the result equals `b - a`,
the subtraction is exact (`a + r = b`, so the result is never negative), and
the unsigned subtraction cannot underflow/wrap: the wrapping subtraction of
`u64` agrees with the exact one on the success path. -/
theorem withdraw_funds_no_underflow (b a r : Nat) (hb : b < u64Size) (ha : a < u64Size)
    (h : withdraw_funds b a = Except.ok r) :
    r = b - a ∧ a + r = b ∧ wrappingSub b a = b - a := by
  unfold withdraw_funds at h
  by_cases hlt : b < a
  · rw [if_pos hlt] at h
    exact absurd h (by simp)
  · rw [if_neg hlt] at h
    have hle : a ≤ b := Nat.not_lt.mp hlt
    have hr : r = b - a := by
      cases h
      rfl
    refine ⟨hr, by omega, ?_⟩
    unfold wrappingSub
    rw [Nat.mod_eq_of_lt ha]
    have heq : b + (u64Size - a) = (b - a) + u64Size := by omega
    rw [heq, Nat.add_mod_right, Nat.mod_eq_of_lt (by omega)]

/-- Witness for C4 at the concrete input `b = 5`, `a = 3`, `r = 2`. -/
theorem withdraw_funds_no_underflow_witness :
    2 = 5 - 3 ∧ 3 + 2 = 5 ∧ wrappingSub 5 3 = 5 - 3 :=
  withdraw_funds_no_underflow 5 3 2 (by decide) (by decide) rfl

/-- Claim C5: withdrawing the whole balance succeeds and yields a zero
balance; for every amount, an amount at most the balance succeeds with the
exact difference and only a strictly greater amount fails. -/
theorem withdraw_funds_exact_balance (b : Nat) :
    withdraw_funds b b = Except.ok 0 ∧
    ∀ a : Nat, (b < a ∧ withdraw_funds b a = Except.error "not enough funds") ∨
      (a ≤ b ∧ withdraw_funds b a = Except.ok (b - a)) := by
  constructor
  · unfold withdraw_funds
    rw [if_neg (Nat.lt_irrefl b), Nat.sub_self]
  · intro a
    unfold withdraw_funds
    by_cases h : b < a
    · exact Or.inl ⟨h, by rw [if_pos h]⟩
    · exact Or.inr ⟨Nat.not_lt.mp h, by rw [if_neg h]⟩

/-- Claim C6: the concrete test vectors: `withdraw_funds 0 0` succeeds with
`0`, `withdraw_funds 100 101` fails with "not enough funds", and
`withdraw_funds 500 200` succeeds with `300`. -/
theorem withdraw_funds_test_vectors :
    withdraw_funds 0 0 = Except.ok 0 ∧
    withdraw_funds 100 101 = Except.error "not enough funds" ∧
    withdraw_funds 500 200 = Except.ok 300 :=
  ⟨rfl, rfl, rfl⟩

/-- Claim C7: wrapping a raw `u64` in the semantic newtype and immediately
unwrapping it via the accessor yields the value back:
`(Balance.mk x).get = x` and `(Amount.mk x).get = x`. -/
theorem newtype_get_roundtrip (x : Nat) :
    (Balance.mk x).get = x ∧ (Amount.mk x).get = x :=
  ⟨rfl, rfl⟩

/-- Claim C8: the withdrawal is pure and deterministic: it is a function of
its inputs alone, and two calls on arguments carrying the same balance and
amount values produce the same result (same success value or same error). -/
theorem withdraw_funds_deterministic (b₁ b₂ : Balance) (a₁ a₂ : Amount)
    (hb : b₁.get = b₂.get) (ha : a₁.get = a₂.get) :
    withdraw_funds_even_better b₁ a₁ = withdraw_funds_even_better b₂ a₂ ∧
    withdraw_funds b₁.get a₁.get = withdraw_funds b₂.get a₂.get := by
  constructor
  · unfold withdraw_funds_even_better
    rw [hb, ha]
  · rw [hb, ha]

/-- Witness for C8 at the concrete inputs `Balance.mk 7` and `Amount.mk 2`. -/
theorem withdraw_funds_deterministic_witness :
    withdraw_funds_even_better (Balance.mk 7) (Amount.mk 2)
      = withdraw_funds_even_better (Balance.mk 7) (Amount.mk 2) ∧
    withdraw_funds (Balance.mk 7).get (Amount.mk 2).get
      = withdraw_funds (Balance.mk 7).get (Amount.mk 2).get :=
  withdraw_funds_deterministic (Balance.mk 7) (Balance.mk 7) (Amount.mk 2) (Amount.mk 2) rfl rfl

/-- Claim C9: zero is a right identity for withdrawal: for every balance
`b`, withdrawing `0` succeeds and returns `b` unchanged, in the raw and the
newtype encodings. -/
theorem withdraw_funds_zero_identity (b : Nat) :
    withdraw_funds b 0 = Except.ok b ∧
    (withdraw_funds_even_better (Balance.mk b) (Amount.mk 0)).map Balance.get
      = Except.ok b := by
  constructor
  · unfold withdraw_funds
    rw [if_neg (Nat.not_lt_zero b), Nat.sub_zero]
  · unfold withdraw_funds_even_better
    simp [Balance.get, Amount.get, Except.map]

/-- Claim C10: whenever the withdrawal fails, the error carried back to the
caller is exactly the string "not enough funds", identically in all three
encodings. -/
theorem withdraw_error_message (b a : Nat) (e₁ e₂ e₃ : String)
    (h₁ : withdraw_funds b a = Except.error e₁)
    (h₂ : withdraw_funds_even_better (Balance.mk b) (Amount.mk a) = Except.error e₂)
    (h₃ : Best.withdraw_funds_best (Best.Balance.mk b) (Best.Amount.mk a) = Except.error e₃) :
    e₁ = "not enough funds" ∧ e₂ = "not enough funds" ∧ e₃ = "not enough funds" := by
  unfold withdraw_funds at h₁
  unfold withdraw_funds_even_better at h₂
  unfold Best.withdraw_funds_best at h₃
  by_cases h : b < a
  · simp [Balance.get, Amount.get, Best.Amount.gtBalance, h] at h₁ h₂ h₃
    exact ⟨h₁.symm, h₂.symm, h₃.symm⟩
  · rw [if_neg h] at h₁
    exact absurd h₁ (by simp)

/-- Witness for C10 at the concrete input `b = 0`, `a = 1`. -/
theorem withdraw_error_message_witness :
    "not enough funds" = "not enough funds" ∧
    "not enough funds" = "not enough funds" ∧
    "not enough funds" = "not enough funds" :=
  withdraw_error_message 0 1 "not enough funds" "not enough funds" "not enough funds"
    rfl rfl rfl

end RustWorkshop
